import Mathlib

/-!
Shallow embedding of `src/run.py`, a benchmark-runner orchestration script:
it runs a pytest benchmark as a child process while streaming its output to a
logger, queries EC2 instance metadata, fetches CloudWatch metrics for the run
window, merges a "custom" section into the benchmark JSON report, renames the
file and uploads it to S3.

Modelling conventions:
* Timestamps are integers counting seconds (readings of `datetime.utcnow()`);
  `timedelta(minutes=1)` is the integer `60`.
* Tool output parsed character by character (`ec2-metadata`) is a `List Char`;
  other strings are `String`.
* A Python value that `json.dump` may meet is a `JValue`; `datetime` objects
  get their own constructor, since the encoder only accepts them through the
  `default=custom_json_serializer` hook.
* The one exception that can escape (`IndexError` from
  `result.stdout.split(": ")[1]`) is modelled by the `PyOutcome` sum type.
* External effects (logger calls, the metrics query, `os.rename`, the S3
  upload) are recorded in a `MainResult` record instead of being performed.
-/

namespace RunPy

/-- ASCII whitespace removed by Python's `str.strip()` (the script only ever
strips ASCII tool output). -/
def isPySpace (c : Char) : Bool :=
  c = ' ' || c = '\t' || c = '\n' || c = '\x0d' || c = '\x0b' || c = '\x0c'

/-- Python `str.strip()` on a character list: drop whitespace at both ends. -/
def stripChars (l : List Char) : List Char :=
  ((l.dropWhile isPySpace).reverse.dropWhile isPySpace).reverse

/-- Python `s.split(": ")`, specialised to the separator `": "` used at
run.py:25: cut at each left-to-right occurrence of `':'` followed by `' '`. -/
def splitCS : List Char → List (List Char)
  | [] => [[]]
  | [c] => [[c]]
  | c :: d :: rest =>
    if c = ':' ∧ d = ' ' then
      [] :: splitCS rest
    else
      match splitCS (d :: rest) with
      | [] => [[c]]
      | h :: t => (c :: h) :: t

/-- Captured result of `subprocess.run(["ec2-metadata", option], ...)`:
the tool's exit status and its standard output. -/
structure ToolResult where
  exitCode : Int
  toolOut : List Char
deriving Repr, DecidableEq

/-- Outcome of a Python computation that may raise an uncaught `IndexError`. -/
inductive PyOutcome (α : Type) where
  | ok (a : α)
  | indexError
deriving Repr, DecidableEq

/-- `get_ec2_metadata` (run.py:15-29).  A non-zero tool exit raises
`CalledProcessError`, which is caught: the function prints and returns `None`.
On exit 0 with empty stdout it returns `None`.  Otherwise it returns
`result.stdout.split(": ")[1].strip()`, where the `[1]` indexing raises an
uncaught `IndexError` when the split produced fewer than two parts. -/
def get_ec2_metadata (r : ToolResult) : PyOutcome (Option (List Char)) :=
  if r.exitCode ≠ 0 then
    .ok none
  else if r.toolOut = [] then
    .ok none
  else
    match (splitCS r.toolOut).get? 1 with
    | some part => .ok (some (stripChars part))
    | none => .indexError

/-- A Python `datetime` value (fields the script's ISO output shows;
microseconds are omitted, as `isoformat()` omits them when zero). -/
structure PyDatetime where
  year : Nat
  month : Nat
  day : Nat
  hour : Nat
  minute : Nat
  second : Nat
deriving Repr, DecidableEq

/-- Zero-pad a number to two digits, as `datetime.isoformat()` does. -/
def pad2 (n : Nat) : String :=
  if n < 10 then "0" ++ toString n else toString n

/-- Zero-pad a year to four digits, as `datetime.isoformat()` does. -/
def pad4 (n : Nat) : String :=
  if n < 10 then "000" ++ toString n
  else if n < 100 then "00" ++ toString n
  else if n < 1000 then "0" ++ toString n
  else toString n

/-- `datetime.isoformat()`: `YYYY-MM-DDTHH:MM:SS`. -/
def isoformat (d : PyDatetime) : String :=
  pad4 d.year ++ "-" ++ pad2 d.month ++ "-" ++ pad2 d.day ++ "T" ++
    pad2 d.hour ++ ":" ++ pad2 d.minute ++ ":" ++ pad2 d.second

/-- A Python value reachable by `json.dump` in this script: the JSON-native
shapes plus raw `datetime` objects (which may appear inside the CloudWatch
metrics response). -/
inductive JValue where
  | null
  | bool (b : Bool)
  | num (n : Int)
  | str (s : String)
  | datetime (d : PyDatetime)
  | arr (xs : List JValue)
  | obj (kvs : List (String × JValue))

/-- `custom_json_serializer` (run.py:32-35): a `datetime` is converted to its
ISO-8601 string; any other type raises `TypeError` (modelled as `none`). -/
def custom_json_serializer : JValue → Option JValue
  | .datetime d => some (.str (isoformat d))
  | _ => none

mutual

/-- `json.dump(..., default=custom_json_serializer)` (run.py:175) viewed as a
value transformation: JSON-native scalars pass through, containers are encoded
recursively, and a non-native value (here only `datetime`) is replaced by what
`custom_json_serializer` returns for it. -/
def jsonDump : JValue → JValue
  | .null => .null
  | .bool b => .bool b
  | .num n => .num n
  | .str s => .str s
  | .datetime d => (custom_json_serializer (.datetime d)).getD (.datetime d)
  | .arr xs => .arr (jsonDumpList xs)
  | .obj kvs => .obj (jsonDumpKVs kvs)

/-- `jsonDump` element-wise on an array's items. -/
def jsonDumpList : List JValue → List JValue
  | [] => []
  | x :: xs => jsonDump x :: jsonDumpList xs

/-- `jsonDump` on an object's entries (keys pass through unchanged). -/
def jsonDumpKVs : List (String × JValue) → List (String × JValue)
  | [] => []
  | (k, v) :: rest => (k, jsonDump v) :: jsonDumpKVs rest

end

mutual

/-- Whether a value is pure JSON: no raw `datetime` object anywhere inside. -/
def isPureJson : JValue → Bool
  | .null => true
  | .bool _ => true
  | .num _ => true
  | .str _ => true
  | .datetime _ => false
  | .arr xs => isPureJsonList xs
  | .obj kvs => isPureJsonKVs kvs

/-- `isPureJson` over all items of an array. -/
def isPureJsonList : List JValue → Bool
  | [] => true
  | x :: xs => isPureJson x && isPureJsonList xs

/-- `isPureJson` over all values of an object. -/
def isPureJsonKVs : List (String × JValue) → Bool
  | [] => true
  | (_, v) :: rest => isPureJson v && isPureJsonKVs rest

end

/-- Python dict item assignment `d[k] = v` on an (ordered, duplicate-free)
dictionary: replace the value at the first occurrence of `k` in place, or
append the pair when `k` is absent. -/
def dictSet : List (String × JValue) → String → JValue → List (String × JValue)
  | [], k, v => [(k, v)]
  | p :: rest, k, v => if p.1 = k then (k, v) :: rest else p :: dictSet rest k v

/-- Python dict lookup `d[k]` (as an `Option`): value at the first occurrence
of key `k`. -/
def dictGet : List (String × JValue) → String → Option JValue
  | [], _ => none
  | p :: rest, k => if p.1 = k then some p.2 else dictGet rest k

/-- The keys of a dictionary, in insertion order. -/
def dictKeys (kvs : List (String × JValue)) : List String :=
  kvs.map Prod.fst

/-- Top-level keys of a JSON document (empty for a non-object). -/
def topKeys : JValue → List String
  | .obj kvs => dictKeys kvs
  | _ => []

/-- Top-level lookup in a JSON document. -/
def jGet (v : JValue) (k : String) : Option JValue :=
  match v with
  | .obj kvs => dictGet kvs k
  | _ => none

/-- Python `str.strip()` on a `String`. -/
def pyStrip (s : String) : String :=
  String.mk (stripChars s.data)

/-- The child process of `run_pytest_benchmark`: the finite sequence of lines
its combined stdout/stderr produces (as returned by `readline`, so each
produced line is a non-empty string ending in a newline; `""` appears only at
end-of-file) and its exit code. -/
structure ChildProc where
  outLines : List String
  exitCode : Int

/-- The `while True` read loop of `run_pytest_benchmark` (run.py:74-79) at a
stream state whose unread output is `pending`.  `readline` returns the next
pending line, or `""` at end-of-file, at which point the pipe is closed, the
child has terminated, and `poll()` is non-`None`, so the loop breaks.  The
result is the list of lines forwarded to `logger.info`, each `.strip()`ped,
in read order. -/
def streamLoop : List String → List String
  | [] => []
  | output :: rest =>
    if output = "" then []
    else pyStrip output :: streamLoop rest

/-- `run_pytest_benchmark` (run.py:57-82): stream the child's output lines
into the logger, then return `process.poll()`, the child's exit code. -/
def run_pytest_benchmark (child : ChildProc) : List String × Int :=
  (streamLoop child.outLines, child.exitCode)

/-- The same read loop instrumented with fuel, one unit per iteration of
`while True`: `none` means the loop was still running after `fuel`
iterations; `some (logged, rc)` means it broke out and returned `rc`. -/
def loopFuel (rc : Int) : Nat → List String → Option (List String × Int)
  | 0, _ => none
  | fuel + 1, pending =>
    match pending with
    | [] => some ([], rc)
    | output :: rest =>
      if output = "" then some ([], rc)
      else (loopFuel rc fuel rest).map fun r => (pyStrip output :: r.1, r.2)

/-- One run's environment: the parsed CLI arguments, the two `utcnow()`
readings (run.py:95 and run.py:148, in seconds), the child process, the two
`ec2-metadata` invocations (`-i` then `-t`), the CloudWatch metrics response,
and the content of `benchmarking_results.json` written by pytest. -/
structure Env where
  max_pairs : String
  run_label : String
  output_bucket : String
  output_folder : String
  t_start : Int
  t_end : Int
  childLines : List String
  childExit : Int
  metaI : ToolResult
  metaT : ToolResult
  metrics : JValue
  report : List (String × JValue)

/-- The observable effects of one `__main__` run (run.py:94-192). -/
structure MainResult where
  benchLogged : List String
  childCode : Int
  metricsWindows : List (Int × Int)
  written : Option JValue
  renamedTo : Option String
  uploaded : Option (String × String)
  errorLogged : Bool

/-- JSON encoding of an optional metadata value: `None` becomes `null`. -/
def jOfOpt : Option (List Char) → JValue
  | none => .null
  | some l => .str (String.mk l)

/-- Python f-string interpolation of an optional string: `None` prints as
the four characters `None`. -/
def pyFStr : Option (List Char) → String
  | none => "None"
  | some l => String.mk l

/-- The `custom_data` dictionary assembled at run.py:165-170, in insertion
order. -/
def custom_data (env : Env) (iid ityp : Option (List Char)) :
    List (String × JValue) :=
  [("instance_id", jOfOpt iid),
   ("instance_type", jOfOpt ityp),
   ("max_pairs", .str env.max_pairs),
   ("run_label", .str env.run_label),
   ("metrics", env.metrics)]

/-- The file name built at run.py:177:
`f"benchmarking_results_{instance_id}.json"`. -/
def benchmark_file_name (iid : Option (List Char)) : String :=
  "benchmarking_results_" ++ pyFStr iid ++ ".json"

/-- The `__main__` block (run.py:94-192).  In order: capture
`metrics_collection_start_time = utcnow() - 1min`; run the benchmark child,
logging its lines, and keep its exit code; capture
`metrics_collection_end_time = utcnow() + 1min`; call `get_ec2_metadata` for
`-i` and `-t` (an escaped `IndexError` aborts the run); call
`get_metric_data_from_ec2_run` once with the padded window; then, only when
the exit code is 0, build `custom_data`, graft it onto the report under key
`"custom"`, serialize the merged report, rename the file to
`benchmarking_results_{instance_id}.json` and upload it to
`{output_folder}/{file_name}` in `output_bucket`; otherwise log an error. -/
def mainRun (env : Env) : PyOutcome MainResult :=
  let mStart := env.t_start - 60
  let bench := run_pytest_benchmark ⟨env.childLines, env.childExit⟩
  let return_code := bench.2
  let mEnd := env.t_end + 60
  match get_ec2_metadata env.metaI with
  | .indexError => .indexError
  | .ok instance_id =>
    match get_ec2_metadata env.metaT with
    | .indexError => .indexError
    | .ok instance_type =>
      let windows := [(mStart, mEnd)]
      if return_code = 0 then
        let benchmark_data :=
          dictSet env.report "custom" (.obj (custom_data env instance_id instance_type))
        let fname := benchmark_file_name instance_id
        .ok { benchLogged := bench.1
              childCode := return_code
              metricsWindows := windows
              written := some (jsonDump (.obj benchmark_data))
              renamedTo := some fname
              uploaded := some (env.output_bucket,
                                env.output_folder ++ "/" ++ fname)
              errorLogged := false }
      else
        .ok { benchLogged := bench.1
              childCode := return_code
              metricsWindows := windows
              written := none
              renamedTo := none
              uploaded := none
              errorLogged := true }

/-- A default `MainResult`, used only to totalise `pyOk`. -/
def mrDefault : MainResult :=
  { benchLogged := [], childCode := 0, metricsWindows := [], written := none,
    renamedTo := none, uploaded := none, errorLogged := false }

/-- Project the result out of a completed run. -/
def pyOk : PyOutcome MainResult → MainResult
  | .ok r => r
  | .indexError => mrDefault

/-- The `written` effect of a run, `none` when the run raised. -/
def writtenOf : PyOutcome MainResult → Option JValue
  | .ok r => r.written
  | .indexError => none

/-- The `renamedTo` effect of a run, `none` when the run raised. -/
def renamedOf : PyOutcome MainResult → Option String
  | .ok r => r.renamedTo
  | .indexError => none

/-- The `uploaded` effect of a run, `none` when the run raised. -/
def uploadedOf : PyOutcome MainResult → Option (String × String)
  | .ok r => r.uploaded
  | .indexError => none

/-- A sample successful run on an EC2 host: both metadata calls succeed, the
child exits 0, and the CloudWatch response carries a raw datetime. -/
def okEnv : Env :=
  { max_pairs := "1e7"
    run_label := "test-run"
    output_bucket := "bkt"
    output_folder := "folder"
    t_start := 1000
    t_end := 5000
    childLines := ["collected 1 item", "1 passed "]
    childExit := 0
    metaI := ⟨0, "instance-id: i-0abc123\n".data⟩
    metaT := ⟨0, "instance-type: m5.large\n".data⟩
    metrics := .obj [("Timestamps", .arr [.datetime ⟨2024, 1, 2, 3, 4, 5⟩]),
                     ("Values", .arr [.num 42])]
    report := [("machine_info", .obj []), ("benchmarks", .arr [])] }

/-- The same run with the benchmark child failing (exit code 1). -/
def failEnv : Env :=
  { okEnv with childExit := 1, childLines := ["boom"] }

/-- The same run off EC2: both `ec2-metadata` calls exit non-zero, so both
identity lookups return `None`. -/
def noIdentityEnv : Env :=
  { okEnv with metaI := ⟨1, []⟩, metaT := ⟨1, []⟩ }

/-- The same run with a report that already owns a top-level "custom" key. -/
def customKeyEnv : Env :=
  { okEnv with report := [("custom", .null)] }

/-- The completed result of the sample successful run. -/
def okRes : MainResult := pyOk (mainRun okEnv)

/-- The artifact written by the sample successful run. -/
def okW : JValue := okRes.written.getD .null

/-- The completed result of the sample failing run. -/
def failRes : MainResult := pyOk (mainRun failEnv)

theorem splitCS_ne_nil : ∀ l : List Char, splitCS l ≠ [] := by
  intro l
  induction l using splitCS.induct with
  | case1 => simp [splitCS]
  | case2 c => simp [splitCS]
  | case3 c d rest hcd ih =>
    simp only [splitCS, if_pos hcd]
    simp
  | case4 c d rest hcd hnil ih =>
    exact absurd hnil ih
  | case5 c d rest hcd h t heq ih =>
    simp only [splitCS, if_neg hcd, heq]
    simp

/-- When the separator `": "` does not occur, `split` returns the whole
string as its only part. -/
theorem splitCS_no_sep :
    ∀ l : List Char, ¬ ([':', ' '] <:+: l) → splitCS l = [l] := by
  intro l
  induction l using splitCS.induct with
  | case1 => intro _; rfl
  | case2 c => intro _; rfl
  | case3 c d rest hcd ih =>
    intro h
    obtain ⟨rfl, rfl⟩ := hcd
    exact absurd ⟨[], rest, rfl⟩ h
  | case4 c d rest hcd hnil ih =>
    exact absurd hnil (splitCS_ne_nil _)
  | case5 c d rest hcd h t heq ih =>
    intro hinf
    have hrest : ¬ ([':', ' '] <:+: d :: rest) :=
      fun hi => hinf (hi.trans (List.infix_cons List.infix_rfl))
    have h2 := ih hrest
    rw [heq] at h2
    injection h2 with h3 h4
    subst h3 h4
    simp only [splitCS, if_neg hcd, heq]

mutual

/-- Serialization removes every raw datetime: the dumped value is pure JSON. -/
theorem jsonDump_pure : ∀ v : JValue, isPureJson (jsonDump v) = true
  | .null => rfl
  | .bool _ => rfl
  | .num _ => rfl
  | .str _ => rfl
  | .datetime _ => rfl
  | .arr xs => by
    simp only [jsonDump, isPureJson]
    exact jsonDumpList_pure xs
  | .obj kvs => by
    simp only [jsonDump, isPureJson]
    exact jsonDumpKVs_pure kvs

theorem jsonDumpList_pure : ∀ xs : List JValue, isPureJsonList (jsonDumpList xs) = true
  | [] => rfl
  | x :: xs => by
    simp only [jsonDumpList, isPureJsonList, Bool.and_eq_true]
    exact ⟨jsonDump_pure x, jsonDumpList_pure xs⟩

theorem jsonDumpKVs_pure : ∀ kvs : List (String × JValue), isPureJsonKVs (jsonDumpKVs kvs) = true
  | [] => rfl
  | (k, v) :: rest => by
    simp only [jsonDumpKVs, isPureJsonKVs, Bool.and_eq_true]
    exact ⟨jsonDump_pure v, jsonDumpKVs_pure rest⟩

end

/-- Serializing an object keeps its keys. -/
theorem dictKeys_jsonDumpKVs :
    ∀ kvs : List (String × JValue), dictKeys (jsonDumpKVs kvs) = dictKeys kvs
  | [] => rfl
  | (k, v) :: rest => by
    simp only [jsonDumpKVs, dictKeys, List.map_cons]
    exact congrArg _ (dictKeys_jsonDumpKVs rest)

/-- Serializing an object serializes each looked-up value. -/
theorem dictGet_jsonDumpKVs :
    ∀ (kvs : List (String × JValue)) (k : String),
      dictGet (jsonDumpKVs kvs) k = (dictGet kvs k).map jsonDump
  | [], _ => rfl
  | (k0, v) :: rest, k => by
    simp only [jsonDumpKVs, dictGet]
    by_cases h : k0 = k
    · simp [h]
    · simp only [h, if_false]
      exact dictGet_jsonDumpKVs rest k

/-- Keys after `d[k] = v`: unchanged when `k` was present, appended when not. -/
theorem dictKeys_dictSet (kvs : List (String × JValue)) (k : String) (v : JValue) :
    dictKeys (dictSet kvs k v) =
      (if k ∈ dictKeys kvs then dictKeys kvs else dictKeys kvs ++ [k]) := by
  induction kvs with
  | nil => simp [dictSet, dictKeys]
  | cons p rest ih =>
    by_cases h : p.1 = k
    · simp [dictSet, dictKeys, h]
    · have hne : ¬ k = p.1 := fun hk => h hk.symm
      simp only [dictSet, h, if_false, dictKeys, List.map_cons, List.mem_cons, hne,
        false_or]
      rw [show (dictKeys (dictSet rest k v) = List.map Prod.fst (dictSet rest k v)) from rfl] at ih
      rw [ih]
      by_cases hm : k ∈ List.map Prod.fst rest
      · simp [dictKeys, hm]
      · simp [dictKeys, hm]

/-- After `d[k] = v`, looking up `k` gives `v`. -/
theorem dictGet_dictSet_self (kvs : List (String × JValue)) (k : String) (v : JValue) :
    dictGet (dictSet kvs k v) k = some v := by
  induction kvs with
  | nil => simp [dictSet, dictGet]
  | cons p rest ih =>
    by_cases h : p.1 = k
    · simp [dictSet, dictGet, h]
    · simp [dictSet, dictGet, h, ih]

/-- After `d[k] = v`, every other key is looked up unchanged. -/
theorem dictGet_dictSet_ne (kvs : List (String × JValue)) (k : String) (v : JValue)
    (k2 : String) (hk : k2 ≠ k) :
    dictGet (dictSet kvs k v) k2 = dictGet kvs k2 := by
  induction kvs with
  | nil =>
    have hne : ¬ k = k2 := fun h2 => hk h2.symm
    simp [dictSet, dictGet, hne]
  | cons p rest ih =>
    by_cases h : p.1 = k
    · have : ¬ k = k2 := fun hkk => hk hkk.symm
      simp [dictSet, dictGet, h, this, h ▸ this]
    · simp only [dictSet, h, if_false, dictGet]
      by_cases h2 : p.1 = k2
      · simp [h2]
      · simp [h2, ih]

/-- The read loop forwards exactly the produced lines, stripped, in order
(`readline` returns `""` only at end-of-file, so produced lines are
non-empty). -/
theorem streamLoop_eq_map :
    ∀ lines : List String, (∀ l ∈ lines, l ≠ "") → streamLoop lines = lines.map pyStrip := by
  intro lines
  induction lines with
  | nil => intro _; rfl
  | cons l rest ih =>
    intro h
    have hl : l ≠ "" := h l (List.mem_cons_self l rest)
    simp only [streamLoop, hl, if_false, List.map_cons]
    exact congrArg _ (ih fun x hx => h x (List.mem_cons_of_mem l hx))

/-- One iteration of the fuelled loop at a cons state. -/
theorem loopFuel_succ_cons (rc : Int) (n : Nat) (l : String) (rest : List String) :
    loopFuel rc (n + 1) (l :: rest) =
      (if l = "" then some ([], rc)
       else (loopFuel rc n rest).map fun r => (pyStrip l :: r.1, r.2)) := rfl

/-- The fuelled loop finishes within `length + 1` iterations and agrees with
`run_pytest_benchmark`. -/
theorem loopFuel_complete :
    ∀ (rc : Int) (lines : List String),
      loopFuel rc (lines.length + 1) lines = some (run_pytest_benchmark ⟨lines, rc⟩) := by
  intro rc lines
  induction lines with
  | nil => rfl
  | cons l rest ih =>
    by_cases hl : l = ""
    · rw [List.length_cons, loopFuel_succ_cons, if_pos hl]
      simp [run_pytest_benchmark, streamLoop, hl]
    · rw [List.length_cons, loopFuel_succ_cons, if_neg hl, ih]
      simp [run_pytest_benchmark, streamLoop, hl]

/-- Case analysis of a completed `__main__` run: the window is always the
padded one, the logged lines and exit code come from the benchmark runner,
and the remaining effects depend on the exit code exactly as run.py:161-192
does. -/
theorem mainRun_ok (env : Env) (res : MainResult) (h : mainRun env = .ok res) :
    ∃ iid ityp, get_ec2_metadata env.metaI = .ok iid ∧
      get_ec2_metadata env.metaT = .ok ityp ∧
      res.metricsWindows = [(env.t_start - 60, env.t_end + 60)] ∧
      res.benchLogged = streamLoop env.childLines ∧
      res.childCode = env.childExit ∧
      ((env.childExit = 0 ∧
        res.written = some (jsonDump (.obj (dictSet env.report "custom"
          (.obj (custom_data env iid ityp))))) ∧
        res.renamedTo = some (benchmark_file_name iid) ∧
        res.uploaded = some (env.output_bucket,
          env.output_folder ++ "/" ++ benchmark_file_name iid) ∧
        res.errorLogged = false) ∨
       (env.childExit ≠ 0 ∧ res.written = none ∧ res.renamedTo = none ∧
        res.uploaded = none ∧ res.errorLogged = true)) := by
  simp only [mainRun, run_pytest_benchmark] at h
  cases hI : get_ec2_metadata env.metaI with
  | indexError => rw [hI] at h; simp at h
  | ok iid =>
    rw [hI] at h
    cases hT : get_ec2_metadata env.metaT with
    | indexError => rw [hT] at h; simp at h
    | ok ityp =>
      rw [hT] at h
      dsimp only at h
      refine ⟨iid, ityp, rfl, rfl, ?_⟩
      by_cases hrc : env.childExit = 0
      · rw [if_pos hrc] at h
        injection h with h2
        subst h2
        exact ⟨rfl, rfl, rfl, Or.inl ⟨hrc, rfl, rfl, rfl, rfl⟩⟩
      · rw [if_neg hrc] at h
        injection h with h2
        subst h2
        exact ⟨rfl, rfl, rfl, Or.inr ⟨hrc, rfl, rfl, rfl, rfl⟩⟩

/-- C1: the code evaluated at the failing input.  With the child exiting 0 and
both `ec2-metadata` calls failing (absent host identity), the workflow does
complete and upload — but the file is renamed to
`benchmarking_results_None.json`: the identifier slot is filled with the
literal interpolation of Python `None`, not with a timestamp-based fallback
(the timestamp computed at run.py:139 is never used, although the comment at
run.py:179 announces renaming to include the timestamp). -/
theorem C1_none_filename_eval :
    renamedOf (mainRun noIdentityEnv) = some "benchmarking_results_None.json" ∧
    uploadedOf (mainRun noIdentityEnv) =
      some ("bkt", "folder/benchmarking_results_None.json") :=
  ⟨rfl, rfl⟩

/-- C2 (counterexample): when the original report already owns a top-level
"custom" key, the rewritten artifact's top-level keys equal the original's
keys — they are not the original's keys plus one additional key. -/
theorem C2_counterexample :
    dictKeys customKeyEnv.report = ["custom"] ∧
    (writtenOf (mainRun customKeyEnv)).map topKeys = some ["custom"] ∧
    (["custom"] : List String).length ≠ (["custom"] : List String).length + 1 :=
  ⟨rfl, rfl, by omega⟩

/-- C2 (amended): for every completed run whose child exits 0, the artifact's
top-level keys are the original report's keys with "custom" appended when it
was absent (when the report already had a "custom" key, the key set is
unchanged and that key is overwritten), and the value stored at "custom" is
exactly the serialized `custom_data` record, whose fields are exactly
{instance_id, instance_type, max_pairs, run_label, metrics}. -/
theorem C2_keys_amended (env : Env) (res : MainResult) (w : JValue)
    (h : mainRun env = .ok res) (hw : res.written = some w) :
    topKeys w = (if "custom" ∈ dictKeys env.report then dictKeys env.report
                 else dictKeys env.report ++ ["custom"]) ∧
    ∃ iid ityp,
      get_ec2_metadata env.metaI = .ok iid ∧
      get_ec2_metadata env.metaT = .ok ityp ∧
      jGet w "custom" = some (jsonDump (.obj (custom_data env iid ityp))) ∧
      dictKeys (jsonDumpKVs (custom_data env iid ityp)) =
        ["instance_id", "instance_type", "max_pairs", "run_label", "metrics"] := by
  obtain ⟨iid, ityp, hI, hT, hwin, hbl, hcc, hbr⟩ := mainRun_ok env res h
  rcases hbr with ⟨h0, hwr, hrn, hup, herr⟩ | ⟨h0, hwr, hrn, hup, herr⟩
  · rw [hwr] at hw
    injection hw with hw2
    subst hw2
    constructor
    · show dictKeys (jsonDumpKVs (dictSet env.report "custom"
        (.obj (custom_data env iid ityp)))) = _
      rw [dictKeys_jsonDumpKVs, dictKeys_dictSet]
    · refine ⟨iid, ityp, hI, hT, ?_, rfl⟩
      show dictGet (jsonDumpKVs (dictSet env.report "custom"
        (.obj (custom_data env iid ityp)))) "custom" = _
      rw [dictGet_jsonDumpKVs, dictGet_dictSet_self]
      rfl
  · rw [hwr] at hw
    exact Option.noConfusion hw

/-- C2 (witness): the amended claim at the sample successful run. -/
theorem C2_keys_amended_witness :
    topKeys okW = (if "custom" ∈ dictKeys okEnv.report then dictKeys okEnv.report
                   else dictKeys okEnv.report ++ ["custom"]) ∧
    ∃ iid ityp,
      get_ec2_metadata okEnv.metaI = .ok iid ∧
      get_ec2_metadata okEnv.metaT = .ok ityp ∧
      jGet okW "custom" = some (jsonDump (.obj (custom_data okEnv iid ityp))) ∧
      dictKeys (jsonDumpKVs (custom_data okEnv iid ityp)) =
        ["instance_id", "instance_type", "max_pairs", "run_label", "metrics"] :=
  C2_keys_amended okEnv okRes okW rfl rfl

/-- C3: on every completed run whose child exits non-zero, nothing is
written, renamed or uploaded, no metrics-merge happens, the error is logged,
and the metrics-retrieval call was still made exactly once. -/
theorem C3_failure_path (env : Env) (res : MainResult)
    (h : mainRun env = .ok res) (hrc : env.childExit ≠ 0) :
    res.written = none ∧ res.renamedTo = none ∧ res.uploaded = none ∧
    res.errorLogged = true ∧ res.metricsWindows.length = 1 := by
  obtain ⟨iid, ityp, hI, hT, hwin, hbl, hcc, hbr⟩ := mainRun_ok env res h
  rcases hbr with ⟨h0, _⟩ | ⟨_, hw, hr, hu, he⟩
  · exact absurd h0 hrc
  · refine ⟨hw, hr, hu, he, ?_⟩
    rw [hwin]
    rfl

/-- C3 (witness): the failure path at the sample failing run. -/
theorem C3_failure_path_witness :
    failRes.written = none ∧ failRes.renamedTo = none ∧ failRes.uploaded = none ∧
    failRes.errorLogged = true ∧ failRes.metricsWindows.length = 1 :=
  C3_failure_path failEnv failRes rfl (by decide)

/-- C4: grafting the "custom" section is a frame-preserving update — at the
dictionary level (`benchmark_data["custom"] = custom_data`, run.py:172) every
key other than "custom" keeps its value, and at the artifact level every
other top-level key of the written file holds exactly the serialization of
its original value. -/
theorem C4_frame :
    (∀ (kvs : List (String × JValue)) (v : JValue) (k : String), k ≠ "custom" →
      dictGet (dictSet kvs "custom" v) k = dictGet kvs k) ∧
    (∀ (env : Env) (res : MainResult) (w : JValue) (k : String),
      mainRun env = .ok res → res.written = some w → k ≠ "custom" →
      jGet w k = (dictGet env.report k).map jsonDump) := by
  constructor
  · intro kvs v k hk
    exact dictGet_dictSet_ne kvs "custom" v k hk
  · intro env res w k h hw hk
    obtain ⟨iid, ityp, hI, hT, hwin, hbl, hcc, hbr⟩ := mainRun_ok env res h
    rcases hbr with ⟨h0, hwr, _⟩ | ⟨h0, hwr, _⟩
    · rw [hwr] at hw
      injection hw with hw2
      subst hw2
      show dictGet (jsonDumpKVs (dictSet env.report "custom"
        (.obj (custom_data env iid ityp)))) k = _
      rw [dictGet_jsonDumpKVs, dictGet_dictSet_ne _ _ _ _ hk]
    · rw [hwr] at hw
      exact Option.noConfusion hw

/-- C4 (witness): the frame property at a concrete report and key. -/
theorem C4_frame_witness :
    dictGet (dictSet okEnv.report "custom" .null) "machine_info" =
      dictGet okEnv.report "machine_info" :=
  C4_frame.1 okEnv.report .null "machine_info" (by decide)

/-- C5: on every completed run in which the clock advanced strictly between
the two `utcnow()` captures, the window handed to the metrics query is
exactly (start − 1 min, end + 1 min): it strictly brackets the captured
process times with exactly 60 seconds of padding on each side. -/
theorem C5_window (env : Env) (res : MainResult)
    (h : mainRun env = .ok res) (hlt : env.t_start < env.t_end) :
    res.metricsWindows = [(env.t_start - 60, env.t_end + 60)] ∧
    env.t_start - 60 < env.t_start ∧ env.t_start < env.t_end ∧
    env.t_end < env.t_end + 60 ∧
    env.t_start - (env.t_start - 60) = 60 ∧ (env.t_end + 60) - env.t_end = 60 := by
  obtain ⟨iid, ityp, hI, hT, hwin, hbl, hcc, hbr⟩ := mainRun_ok env res h
  exact ⟨hwin, by omega, hlt, by omega, by omega, by omega⟩

/-- C5 (witness): the window at the sample successful run. -/
theorem C5_window_witness :
    okRes.metricsWindows = [(okEnv.t_start - 60, okEnv.t_end + 60)] ∧
    okEnv.t_start - 60 < okEnv.t_start ∧ okEnv.t_start < okEnv.t_end ∧
    okEnv.t_end < okEnv.t_end + 60 ∧
    okEnv.t_start - (okEnv.t_start - 60) = 60 ∧
    (okEnv.t_end + 60) - okEnv.t_end = 60 :=
  C5_window okEnv okRes rfl (by decide)

/-- C6: for every finite sequence of produced lines (possibly empty) the
runner forwards each line to the logger stripped, in production order, with
none dropped or duplicated, and returns the child's exit code. -/
theorem C6_stream_order (lines : List String) (rc : Int)
    (hne : ∀ l ∈ lines, l ≠ "") :
    run_pytest_benchmark ⟨lines, rc⟩ = (lines.map pyStrip, rc) := by
  unfold run_pytest_benchmark
  rw [streamLoop_eq_map lines hne]

/-- C6 (witness): order-preserving forwarding on a concrete two-line stream. -/
theorem C6_stream_order_witness :
    run_pytest_benchmark ⟨["collected 1 item", "1 passed "], 0⟩ =
      (["collected 1 item", "1 passed "].map pyStrip, 0) :=
  C6_stream_order ["collected 1 item", "1 passed "] 0 (by decide)

/-- C7: the read loop terminates on every finite output stream — within
`length + 1` iterations it has broken out with the runner's result — and
in particular, on an already-exited child with no output it terminates in a
single iteration, returning the exit code. -/
theorem C7_loop_terminates (rc : Int) (lines : List String) :
    loopFuel rc (lines.length + 1) lines = some (run_pytest_benchmark ⟨lines, rc⟩) ∧
    loopFuel rc 1 [] = some ([], rc) :=
  ⟨loopFuel_complete rc lines, rfl⟩

/-- C8: the artifact written by every completed successful run is pure JSON —
no raw datetime object survives serialization — and each datetime is encoded
as its ISO-8601 string. -/
theorem C8_serialization (env : Env) (res : MainResult) (w : JValue)
    (h : mainRun env = .ok res) (hw : res.written = some w) :
    isPureJson w = true ∧
    (∀ d : PyDatetime, jsonDump (.datetime d) = .str (isoformat d)) := by
  obtain ⟨iid, ityp, hI, hT, hwin, hbl, hcc, hbr⟩ := mainRun_ok env res h
  rcases hbr with ⟨h0, hwr, _⟩ | ⟨h0, hwr, _⟩
  · rw [hwr] at hw
    injection hw with hw2
    subst hw2
    exact ⟨jsonDump_pure _, fun d => rfl⟩
  · rw [hwr] at hw
    exact Option.noConfusion hw

/-- C8 (witness): the artifact of the sample run, whose metrics contain a raw
datetime, is pure JSON. -/
theorem C8_serialization_witness : isPureJson okW = true :=
  (C8_serialization okEnv okRes okW rfl rfl).1

/-- C9: when the tool exits 0 and its non-empty stdout lacks the ": "
separator, `get_ec2_metadata` raises `IndexError` rather than returning a
value or `None`; the `None`-returning path covers exactly non-zero exit and
empty output. -/
theorem C9_split_index_error :
    (∀ r : ToolResult, r.exitCode = 0 → r.toolOut ≠ [] →
      ¬ ([':', ' '] <:+: r.toolOut) → get_ec2_metadata r = .indexError) ∧
    (∀ r : ToolResult, get_ec2_metadata r = .ok none →
      r.exitCode ≠ 0 ∨ r.toolOut = []) := by
  constructor
  · intro r h0 hne hsep
    unfold get_ec2_metadata
    rw [if_neg (fun hh => hh h0), if_neg hne, splitCS_no_sep r.toolOut hsep]
    rfl
  · intro r h
    by_cases h0 : r.exitCode = 0
    · by_cases hemp : r.toolOut = []
      · exact Or.inr hemp
      · exfalso
        unfold get_ec2_metadata at h
        rw [if_neg (fun hh => hh h0), if_neg hemp] at h
        cases hg : (splitCS r.toolOut).get? 1 with
        | none => rw [hg] at h; simp at h
        | some part => rw [hg] at h; simp at h
    · exact Or.inl h0

/-- C9 (witness): `IndexError` on the separator-free stdout "wat". -/
theorem C9_split_index_error_witness :
    get_ec2_metadata ⟨0, "wat".data⟩ = .indexError :=
  C9_split_index_error.1 ⟨0, "wat".data⟩ rfl (by decide) (by decide)

/-- C10: exit 0 with empty stdout returns `None` — indistinguishable from a
tool failure, so downstream identity fields are recorded as absent even
though the tool succeeded. -/
theorem C10_empty_output_none :
    get_ec2_metadata ⟨0, []⟩ = .ok none ∧
    (∀ r : ToolResult, r.exitCode ≠ 0 → get_ec2_metadata r = .ok none) := by
  constructor
  · rfl
  · intro r h0
    unfold get_ec2_metadata
    rw [if_pos h0]

/-- C10 (witness): the empty-output success and a concrete tool failure give
the same `None` result. -/
theorem C10_empty_output_none_witness :
    get_ec2_metadata ⟨1, []⟩ = .ok none ∧ get_ec2_metadata ⟨0, []⟩ = .ok none :=
  ⟨C10_empty_output_none.2 ⟨1, []⟩ (by decide), C10_empty_output_none.1⟩

end RunPy
